import Mathlib

/-!
Verification of the `ai-pdf-processor` library against its specification.

The development shallowly embeds the Python sources:
  * `src/ai_pdf_processor/ollama_vision.py` — `Question`, `_build_batch_prompt`,
    `OllamaVisionClient.ask`, `OllamaVisionClient.ask_many`, `ask_image_questions`;
  * `src/ai_pdf_processor/__init__.py` — `ask_document_questions` (facade);
  * the response-decoding steps of `ask_many` (`json.loads` plus shape check) as `decode`.

Modelling conventions:
  * JSON values are the inductive `JValue`; JSON numbers keep their literal token
    (the decoder never interprets numbers, so no float arithmetic is needed).
  * `json.loads` is embedded as `parseJson`, a fuel-based recursive-descent parser
    for the JSON grammar restricted to ASCII-faithful behaviour (the `\u` escape
    maps each code unit independently; this subset covers every input used here).
  * Python dicts reaching the library are association lists (`JDict`); `setdefault`
    and key lookup mirror `dict.setdefault` / `dict.get`.
  * Effects are made explicit: the network client and the PDF renderer are driven
    by an `Env` record, and each outward call is recorded as an `Event` in a
    threaded `St` state.  Python's `tempfile.TemporaryDirectory` context manager
    is `withTempDir`, which removes the directory on every exit path, exactly as
    CPython's context manager does.
  * Python exceptions are the `PyErr` error codes named after the spec's taxonomy.
  * `str.strip` / `str.lower` are modelled for ASCII (`pyStrip` / `pyLower`); all
    strings occurring in the claims are ASCII.
-/

/-- Error taxonomy of the library, named after the specification's §7. -/
inductive PyErr where
  | modelNotConfigured
  | invalidQuestionBatch
  | unsupportedInput
  | imageNotFound
  | malformedServerResponse
  | invalidPage
  | emptyDocument
  | pageOutOfRange
  | renderFailure
deriving Repr, DecidableEq

/-- JSON values as produced by `json.loads`.  Number literals keep their source
token because the library never performs arithmetic on them. -/
inductive JValue where
  | null
  | bool (b : Bool)
  | num (tok : String)
  | str (s : String)
  | arr (items : List JValue)
  | obj (fields : List (String × JValue))
deriving Repr, BEq

/-- Python truthiness of a JSON value (`None`, `False`, `0`, `""`, `[]`, `\x7b\x7d`
are falsy).  A numeric token is falsy when it denotes zero. -/
def JValue.falsy : JValue → Bool
  | .null => true
  | .bool b => !b
  | .num t => t.data.all fun c => c == '-' || c == '0' || c == '.' || c == 'e' || c == 'E' || c == '+'
  | .str s => s == ""
  | .arr l => l.isEmpty
  | .obj l => l.isEmpty

/-- The `isinstance(data, dict) and key in data` test of the decoder. -/
def JValue.isDictWithKey : JValue → String → Bool
  | .obj fields, k => fields.any fun p => p.1 == k
  | _, _ => false

/-- Python dicts that cross the library boundary, as association lists. -/
abbrev JDict := List (String × JValue)

/-- Key lookup in an association list (`dict.get`). -/
def alookup : JDict → String → Option JValue
  | [], _ => none
  | (k, v) :: rest, key => if k == key then some v else alookup rest key

/-- Embedding of `dict.setdefault`: keeps an existing binding, otherwise appends
the default at the end. -/
def setdefault (m : JDict) (k : String) (v : JValue) : JDict :=
  match alookup m k with
  | some _ => m
  | none => m ++ [(k, v)]

/-- ASCII whitespace as stripped by Python's `str.strip`. -/
def pyIsSpace (c : Char) : Bool :=
  c.toNat == 32 || c.toNat == 9 || c.toNat == 10 || c.toNat == 13 || c.toNat == 11 || c.toNat == 12

/-- ASCII lowering of one character, as Python's `str.lower` acts on ASCII. -/
def pyToLower (c : Char) : Char :=
  if 65 ≤ c.toNat ∧ c.toNat ≤ 90 then Char.ofNat (c.toNat + 32) else c

/-- Embedding of `str.strip` (ASCII whitespace). -/
def pyStrip (s : String) : String :=
  ⟨((s.data.dropWhile pyIsSpace).reverse.dropWhile pyIsSpace).reverse⟩

/-- Embedding of `str.lower` (ASCII). -/
def pyLower (s : String) : String :=
  ⟨s.data.map pyToLower⟩

/-- Embedding of `_is_url` from `ollama_vision.py` (`str.startswith`, expressed
on character lists so that it evaluates by reduction). -/
def isUrl (s : String) : Bool :=
  "http://".data.isPrefixOf s.data || "https://".data.isPrefixOf s.data

/-- Suffix test used to model `str.endswith`. -/
def pyEndsWith (s suf : String) : Bool :=
  suf.data.isSuffixOf s.data

/-- The `Question` dataclass: a question text and its expected answer type. -/
structure Question where
  question : String
  type : String
deriving Repr, DecidableEq

/-- JSON whitespace accepted between tokens by `json.loads`. -/
def jsonWs (c : Char) : Bool :=
  c == ' ' || c == '\t' || c == '\n' || c == '\r'

/-- Skip JSON whitespace. -/
def skipWs (cs : List Char) : List Char :=
  cs.dropWhile jsonWs

/-- Value of one hexadecimal digit, if any. -/
def hexVal (c : Char) : Option Nat :=
  if '0' ≤ c ∧ c ≤ '9' then some (c.toNat - 48)
  else if 'a' ≤ c ∧ c ≤ 'f' then some (c.toNat - 87)
  else if 'A' ≤ c ∧ c ≤ 'F' then some (c.toNat - 55)
  else none

/-- Body of a JSON string literal after the opening quote: returns the decoded
characters and the remaining input after the closing quote. -/
def parseStringBody : List Char → Option (List Char × List Char)
  | [] => none
  | '"' :: rest => some ([], rest)
  | '\\' :: esc =>
    match esc with
    | 'u' :: h1 :: h2 :: h3 :: h4 :: rest =>
      match hexVal h1, hexVal h2, hexVal h3, hexVal h4 with
      | some a, some b, some c, some d =>
        match parseStringBody rest with
        | some (tail, rem) => some (Char.ofNat (((a * 16 + b) * 16 + c) * 16 + d) :: tail, rem)
        | none => none
      | _, _, _, _ => none
    | e :: rest =>
      let dec : Option Char :=
        if e == '"' then some '"'
        else if e == '\\' then some '\\'
        else if e == '/' then some '/'
        else if e == 'b' then some (Char.ofNat 8)
        else if e == 'f' then some (Char.ofNat 12)
        else if e == 'n' then some '\n'
        else if e == 'r' then some '\r'
        else if e == 't' then some '\t'
        else none
      match dec with
      | some c =>
        match parseStringBody rest with
        | some (tail, rem) => some (c :: tail, rem)
        | none => none
      | none => none
    | [] => none
  | c :: rest =>
    if c.toNat < 32 then none
    else
      match parseStringBody rest with
      | some (tail, rem) => some (c :: tail, rem)
      | none => none

/-- One or more decimal digits, split off the front. -/
def takeDigits (cs : List Char) : List Char × List Char :=
  (cs.takeWhile Char.isDigit, cs.dropWhile Char.isDigit)

/-- Lex a JSON number literal, returning its token and the rest of the input. -/
def parseNumberTok (cs : List Char) : Option (String × List Char) :=
  let (sign, cs1) : List Char × List Char :=
    match cs with
    | '-' :: r => (['-'], r)
    | _ => ([], cs)
  let (intPart, cs2) := takeDigits cs1
  if intPart.isEmpty then none
  else if intPart.length > 1 && intPart.headD '0' == '0' then none
  else
    let (fracPart, cs3) : List Char × List Char :=
      match cs2 with
      | '.' :: r =>
        let (ds, r2) := takeDigits r
        if ds.isEmpty then ([], cs2) else ('.' :: ds, r2)
      | _ => ([], cs2)
    if fracPart.isEmpty && (match cs2 with | '.' :: _ => true | _ => false) then none
    else
      let (expPart, cs4) : List Char × List Char :=
        match cs3 with
        | 'e' :: r =>
          match r with
          | '+' :: r2 =>
            let (ds, r3) := takeDigits r2
            if ds.isEmpty then ([], cs3) else ('e' :: '+' :: ds, r3)
          | '-' :: r2 =>
            let (ds, r3) := takeDigits r2
            if ds.isEmpty then ([], cs3) else ('e' :: '-' :: ds, r3)
          | _ =>
            let (ds, r3) := takeDigits r
            if ds.isEmpty then ([], cs3) else ('e' :: ds, r3)
        | 'E' :: r =>
          match r with
          | '+' :: r2 =>
            let (ds, r3) := takeDigits r2
            if ds.isEmpty then ([], cs3) else ('E' :: '+' :: ds, r3)
          | '-' :: r2 =>
            let (ds, r3) := takeDigits r2
            if ds.isEmpty then ([], cs3) else ('E' :: '-' :: ds, r3)
          | _ =>
            let (ds, r3) := takeDigits r
            if ds.isEmpty then ([], cs3) else ('E' :: ds, r3)
        | _ => ([], cs3)
      if expPart.isEmpty && (match cs3 with | 'e' :: _ => true | 'E' :: _ => true | _ => false) then none
      else some (⟨sign ++ intPart ++ fracPart ++ expPart⟩, cs4)

mutual

/-- Recursive-descent JSON value parser (fuel-bounded, embedding `json.loads`). -/
def parseVal : Nat → List Char → Option (JValue × List Char)
  | 0, _ => none
  | _ + 1, [] => none
  | fuel + 1, c :: rest =>
    if c == 'n' then
      match rest with
      | 'u' :: 'l' :: 'l' :: r => some (.null, r)
      | _ => none
    else if c == 't' then
      match rest with
      | 'r' :: 'u' :: 'e' :: r => some (.bool true, r)
      | _ => none
    else if c == 'f' then
      match rest with
      | 'a' :: 'l' :: 's' :: 'e' :: r => some (.bool false, r)
      | _ => none
    else if c == '"' then
      match parseStringBody rest with
      | some (chars, rem) => some (.str ⟨chars⟩, rem)
      | none => none
    else if c == '[' then
      match skipWs rest with
      | ']' :: r => some (.arr [], r)
      | r1 =>
        match parseArrItems fuel r1 with
        | some (items, rem) => some (.arr items, rem)
        | none => none
    else if c == '{' then
      match skipWs rest with
      | '}' :: r => some (.obj [], r)
      | r1 =>
        match parseObjItems fuel r1 with
        | some (fields, rem) => some (.obj fields, rem)
        | none => none
    else
      match parseNumberTok (c :: rest) with
      | some (tok, rem) => some (.num tok, rem)
      | none => none

/-- Comma-separated JSON array items up to the closing bracket. -/
def parseArrItems : Nat → List Char → Option (List JValue × List Char)
  | 0, _ => none
  | fuel + 1, cs =>
    match parseVal fuel cs with
    | some (v, rem) =>
      match skipWs rem with
      | ',' :: r =>
        match parseArrItems fuel (skipWs r) with
        | some (items, rem2) => some (v :: items, rem2)
        | none => none
      | ']' :: r => some ([v], r)
      | _ => none
    | none => none

/-- Comma-separated JSON object members up to the closing brace. -/
def parseObjItems : Nat → List Char → Option (List (String × JValue) × List Char)
  | 0, _ => none
  | fuel + 1, cs =>
    match cs with
    | '"' :: rest =>
      match parseStringBody rest with
      | some (keyChars, rem) =>
        match skipWs rem with
        | ':' :: r =>
          match parseVal fuel (skipWs r) with
          | some (v, rem2) =>
            match skipWs rem2 with
            | ',' :: r2 =>
              match parseObjItems fuel (skipWs r2) with
              | some (fields, rem3) => some ((⟨keyChars⟩, v) :: fields, rem3)
              | none => none
            | '}' :: r2 => some ([(⟨keyChars⟩, v)], r2)
            | _ => none
          | none => none
        | _ => none
      | none => none
    | _ => none

end

/-- Embedding of `json.loads`: parse one JSON value surrounded by whitespace. -/
def parseJson (s : String) : Option JValue :=
  match parseVal (2 * s.length + 2) (skipWs s.data) with
  | some (v, rest) => if skipWs rest = [] then some v else none
  | none => none

/-- Embedding of the inlined response-decoding steps of `ask_many`
(`json.loads` plus the dict/`answers` shape check); the commented-out length
check of the source is absent, so `expected_count` is unused. -/
def decode (raw : String) (expected_count : Nat) : Except PyErr JValue :=
  match parseJson raw with
  | none => .error .malformedServerResponse
  | some data =>
    if data.isDictWithKey "answers" then .ok data
    else .error .malformedServerResponse

/-- One numbered question line of the batch prompt, from the loop body of
`_build_batch_prompt` (`(q.question or "").strip()` and
`(q.type or "string").strip().lower()`). -/
def questionLine (i : Nat) (q : Question) : String :=
  toString i ++ ". " ++ pyStrip q.question ++ " (answer with "
    ++ pyLower (pyStrip (if q.type == "" then "string" else q.type)) ++ " JSON type)"

/-- The lines appended by `_build_batch_prompt` before the question loop. -/
def promptHeaderLines : List String :=
  ["You're analysing one page or a scanned document image. Carefully read all visible text and layout.",
   "Answer the following questions. Return a STRICT JSON object with the schema:\n\x7b\n  \"answers\": [\x7b \"question\": \"<original question>\", \"answer\": \"<your answer with appropriate JSON type>\", \"comment\": \"<your optional comment>\"\x7d<...one answer per question, same order...>]\n\x7d",
   "Rules:",
   "- Quote the original question in 'question' field of the answer JSON object.",
   "- Put your answer in 'answer' field of the answer JSON object.",
   "- In answer value use native JSON types only: string, number, boolean, or null when uncertain.",
   "- Add optional 'comment' field with your comments to the answer JSON object if needed.",
   "- Do not include any extra keys or text before/after the JSON.",
   "- The length of 'answers' must equal the number of questions asked.",
   "",
   "Questions (with expected answer types):"]

/-- The lines appended by `_build_batch_prompt` after the question loop. -/
def promptFooterLines : List String :=
  ["",
   "Output only:",
   "\x7b\n  \"answers\": [ \x7b \"question\": ..., \"answer\": ..., \"comment\": ... \x7d, ... ]\n\x7d"]

/-- Embedding of `"\n".join(lines)`. -/
def joinLines : List String → String
  | [] => ""
  | [l] => l
  | l :: rest => l ++ "\n" ++ joinLines rest

/-- Embedding of `_build_batch_prompt`: header lines, one numbered line per
question (`enumerate(questions, start=1)`), footer lines, joined by newlines. -/
def build_batch_prompt (questions : List Question) : String :=
  joinLines (promptHeaderLines
    ++ questions.enum.map (fun p => questionLine (p.1 + 1) p.2)
    ++ promptFooterLines)

/-- The `RESPONSE_SCHEMA` constant of `ollama_vision.py` as a JSON value. -/
def RESPONSE_SCHEMA : JValue :=
  .obj [("type", .str "object"),
        ("additionalProperties", .bool false),
        ("required", .arr [.str "answers"]),
        ("properties", .obj
          [("answers", .obj
            [("type", .str "array"),
             ("items", .obj
               [("type", .str "object"),
                ("additionalProperties", .bool false),
                ("required", .arr [.str "question", .str "answer"]),
                ("properties", .obj
                  [("question", .obj [("type", .str "string")]),
                   ("answer", .obj [("type", .arr [.str "string", .str "number", .str "boolean", .str "null"])]),
                   ("comment", .obj [("type", .str "string")])])])])])]

/-- The `allowed` set of answer types in `ask_many`. -/
def allowedTypes : List String := ["string", "number", "boolean"]

/-- One iteration of the validation loop of `ask_many`:
`(q.type or "string").lower() not in allowed` raises. -/
def validateQuestionType (q : Question) : Bool :=
  allowedTypes.contains (pyLower (if q.type == "" then "string" else q.type))

/-- The whole validation loop of `ask_many` succeeds. -/
def validateQuestions (qs : List Question) : Bool :=
  qs.all validateQuestionType

/-- Outward calls recorded while running an operation. -/
inductive Event where
  | renderCall (path : String)
  | generateCall (model : String) (prompt : String) (options : Option JDict) (fmt : Option JValue)
deriving Repr, BEq

/-- Threaded state: fresh temporary-directory ids, the set of live temporary
directories, and the log of outward calls. -/
structure St where
  nextId : Nat
  live : List Nat
  events : List Event

/-- External world: the filesystem, the PDF renderer and the model server.
`render` is the outcome of the `pdf_to_png_pages` rendering work (missing file and
library failures included); `genResp` is the reply dict of `client.generate`. -/
structure Env where
  fileExists : String → Bool
  render : Except PyErr (List String)
  genResp : Option JDict

/-- Embedding of `_load_local_image_as_base64` (URL rejection and existence
check; the claims never inspect the encoded bytes, so none are produced). -/
def loadImageBase64 (image : String) (env : Env) : Except PyErr Unit :=
  if isUrl image then .error .unsupportedInput
  else if env.fileExists image then .ok ()
  else .error .imageNotFound

/-- Embedding of `client.generate`: records the network call and returns the
server's reply dict. -/
def generate (model prompt : String) (options : Option JDict) (fmt : Option JValue)
    (env : Env) (st : St) : Option JDict × St :=
  (env.genResp, { st with events := st.events ++ [.generateCall model prompt options fmt] })

/-- Default endpoint (environment lookup modelled as its default value). -/
def DEFAULT_ENDPOINT : String := "http://localhost:11434"

/-- The `OllamaVisionClient` dataclass. -/
structure OllamaVisionClient where
  endpoint : String := DEFAULT_ENDPOINT
  model : Option String := none
  timeout : Int := 120

/-- Python truthiness of the optional model identifier: `not self.model` is
true exactly when the model is `None` or the empty string. -/
def modelTruthy : Option String → Bool
  | none => false
  | some s => !(s == "")

/-- Embedding of `OllamaVisionClient.ask` (single-question mode), including the
`(resp or \x7b\x7d).get("response") or \x7b\x7d` response extraction. -/
def OllamaVisionClient.ask (c : OllamaVisionClient) (image question : String)
    (options : Option JDict) (env : Env) (st : St) : Except PyErr String × St :=
  if !(modelTruthy c.model) then (.error .modelNotConfigured, st)
  else
    let m := c.model.getD ""
    match loadImageBase64 image env with
      | .error e => (.error e, st)
      | .ok _ =>
        let optSent : Option JDict :=
          match options with
          | none => none
          | some o => if o.isEmpty then none else some o
        let (resp, st1) := generate m question optSent none env st
        let r0 : Option JValue := alookup (resp.getD []) "response"
        let r1 : JValue :=
          match r0 with
          | none => .obj []
          | some v => if v.falsy then .obj [] else v
        (match r1 with
         | .str s => .ok s
         | _ => .error .malformedServerResponse, st1)

/-- Embedding of `OllamaVisionClient.ask_many` (batch mode): model check, batch
validation, prompt build, image load, `setdefault`-merged options,
one `generate` call, then the inline decoding steps (`decode`). -/
def OllamaVisionClient.ask_many (c : OllamaVisionClient) (image : String)
    (questions : List Question) (options : Option JDict) (env : Env) (st : St) :
    Except PyErr JValue × St :=
  if !(modelTruthy c.model) then (.error .modelNotConfigured, st)
  else if questions.isEmpty then (.error .invalidQuestionBatch, st)
  else if !validateQuestions questions then (.error .invalidQuestionBatch, st)
  else
    let m := c.model.getD ""
    let prompt := build_batch_prompt questions
    match loadImageBase64 image env with
      | .error e => (.error e, st)
      | .ok _ =>
        let merged := setdefault (options.getD []) "format" (.str "json")
        let (resp, st1) := generate m prompt (some merged) (some RESPONSE_SCHEMA) env st
        (match alookup (resp.getD []) "response" with
         | some (.str s) => decode s questions.length
         | _ => .error .malformedServerResponse, st1)

/-- Python `endpoint or DEFAULT_ENDPOINT`. -/
def endpointOrDefault (endpoint : Option String) : String :=
  match endpoint with
  | none => DEFAULT_ENDPOINT
  | some e => if e == "" then DEFAULT_ENDPOINT else e

/-- Embedding of `ask_image_question`. -/
def ask_image_question (image question : String) (model : String)
    (endpoint : Option String) (options : Option JDict) (timeout : Int)
    (env : Env) (st : St) : Except PyErr String × St :=
  let client : OllamaVisionClient :=
    { endpoint := endpointOrDefault endpoint, model := some model, timeout := timeout }
  client.ask image question options env st

/-- Embedding of `ask_image_questions`. -/
def ask_image_questions (image : String) (questions : List Question)
    (model : String) (endpoint : Option String) (options : Option JDict)
    (timeout : Int) (env : Env) (st : St) : Except PyErr JValue × St :=
  let client : OllamaVisionClient :=
    { endpoint := endpointOrDefault endpoint, model := some model, timeout := timeout }
  client.ask_many image questions options env st

/-- Embedding of `pdf_to_png_pages`: records the renderer invocation and yields
the rendered page files (or the renderer's failure) from the environment. -/
def pdf_to_png_pages (pdf_path : String) (env : Env) (st : St) :
    Except PyErr (List String) × St :=
  let st1 : St := { st with events := st.events ++ [.renderCall pdf_path] }
  match env.render with
  | .ok pages => (.ok pages, st1)
  | .error e => (.error e, st1)

/-- Embedding of `tempfile.TemporaryDirectory()` used as a context manager: the
directory is created on entry and removed on every exit path, normal or
exceptional, exactly as CPython's context manager guarantees. -/
def withTempDir {α : Type} (st : St) (body : Nat → St → Except PyErr α × St) :
    Except PyErr α × St :=
  let d := st.nextId
  let stIn : St := { st with nextId := d + 1, live := d :: st.live }
  let r := body d stIn
  (r.1, { r.2 with live := r.2.live.erase d })

/-- Embedding of `ask_pdf_question` from `__init__.py`. -/
def ask_pdf_question (pdf_path question : String) (page : Int) (model : String)
    (endpoint : Option String) (options : Option JDict) (timeout : Int)
    (env : Env) (st : St) : Except PyErr String × St :=
  if page < 1 then (.error .invalidPage, st)
  else
    withTempDir st fun _tmp st1 =>
      match pdf_to_png_pages pdf_path env st1 with
      | (.error e, st2) => (.error e, st2)
      | (.ok pngs, st2) =>
        if pngs.isEmpty then (.error .emptyDocument, st2)
        else if (pngs.length : Int) ≤ page - 1 then (.error .pageOutOfRange, st2)
        else ask_image_question (pngs.getD (page - 1).toNat "") question model endpoint options timeout env st2

/-- Embedding of `ask_document_questions` from `__init__.py`: case-insensitive
`.pdf` dispatch, 1-based page validation, scoped temporary directory, render,
page selection, batch call. -/
def ask_document_questions (path : String) (questions : List Question)
    (page : Int) (model : String) (endpoint : Option String)
    (options : Option JDict) (timeout : Int) (env : Env) (st : St) :
    Except PyErr JValue × St :=
  if pyEndsWith (pyLower path) ".pdf" then
    if page < 1 then (.error .invalidPage, st)
    else
      withTempDir st fun _tmp st1 =>
        match pdf_to_png_pages path env st1 with
        | (.error e, st2) => (.error e, st2)
        | (.ok pngs, st2) =>
          if pngs.isEmpty then (.error .emptyDocument, st2)
          else if (pngs.length : Int) ≤ page - 1 then (.error .pageOutOfRange, st2)
          else ask_image_questions (pngs.getD (page - 1).toNat "") questions model endpoint options timeout env st2
  else
    ask_image_questions path questions model endpoint options timeout env st

/-- Boolean scan for an occurrence of `pat` inside `s` (character lists). -/
def occursInAux (s pat : List Char) : Bool :=
  match s with
  | [] => pat.isEmpty
  | _ :: t => pat.isPrefixOf s || occursInAux t pat

/-- Boolean substring occurrence test on strings. -/
def occursIn (s pat : String) : Bool :=
  occursInAux s.data pat.data

/-- The network-dependent tail of `ask_many`: response-field extraction and the
inline decoding, as a function of the environment. -/
def askManyNet (env : Env) (qs : List Question) : Except PyErr JValue :=
  match alookup ((env.genResp).getD []) "response" with
  | some (.str s) => decode s qs.length
  | _ => .error .malformedServerResponse

/-- The `options or None` value that `ask` passes to the network call. -/
def askOptSent (options : Option JDict) : Option JDict :=
  match options with
  | none => none
  | some o => if o.isEmpty then none else some o

/-- The network-dependent tail of `ask`: the
`(resp or \x7b\x7d).get("response") or \x7b\x7d` extraction and string check. -/
def askNet (env : Env) : Except PyErr String :=
  let r0 : Option JValue := alookup ((env.genResp).getD []) "response"
  let r1 : JValue :=
    match r0 with
    | none => .obj []
    | some v => if v.falsy then .obj [] else v
  match r1 with
  | .str s => .ok s
  | _ => .error .malformedServerResponse

/-- The generation options carried by a recorded event. -/
def eventOptions : Event → Option JDict
  | .renderCall _ => none
  | .generateCall _ _ o _ => o

theorem isPrefixOf_self_append (p r : List Char) : p.isPrefixOf (p ++ r) = true := by
  rw [List.isPrefixOf_iff_prefix]
  exact List.prefix_append p r

theorem occursInAux_of_append (a p b : List Char) :
    occursInAux (a ++ p ++ b) p = true := by
  induction a with
  | nil =>
    simp only [List.nil_append]
    cases hpb : p ++ b with
    | nil =>
      have hp : p = [] := by
        cases p with
        | nil => rfl
        | cons c t => simp at hpb
      subst hp
      simp [occursInAux]
    | cons c t =>
      have hpre : p.isPrefixOf (p ++ b) = true := isPrefixOf_self_append p b
      rw [hpb] at hpre
      simp [occursInAux, hpre]
  | cons c t ih =>
    simp only [List.cons_append, occursInAux]
    rw [show (t.append p).append b = t ++ p ++ b from rfl, ih, Bool.or_true]

/-- A string that occurs as a middle factor is found by `occursIn`. -/
theorem occursIn_of_decomp (s a p b : String) (h : s = a ++ p ++ b) :
    occursIn s p = true := by
  subst h
  show occursInAux (a ++ p ++ b).data p.data = true
  rw [String.data_append, String.data_append]
  exact occursInAux_of_append a.data p.data b.data

theorem joinLines_append (l1 l2 : List String) (h1 : l1 ≠ []) (h2 : l2 ≠ []) :
    joinLines (l1 ++ l2) = joinLines l1 ++ "\n" ++ joinLines l2 := by
  induction l1 with
  | nil => exact absurd rfl h1
  | cons x rest ih =>
    cases rest with
    | nil =>
      cases l2 with
      | nil => exact absurd rfl h2
      | cons m ms => simp [joinLines]
    | cons y rs =>
      have h := ih (by simp)
      simp only [List.cons_append] at h ⊢
      simp only [joinLines]
      rw [h]
      simp [String.append_assoc]

/-- Each member line occurs as a middle factor of the joined string. -/
theorem joinLines_mem_decomp (l : List String) (x : String) (h : x ∈ l) :
    ∃ a b : String, joinLines l = a ++ x ++ b := by
  induction l with
  | nil => cases h
  | cons y rest ih =>
    rcases List.mem_cons.mp h with hx | hx
    · subst hx
      cases rest with
      | nil => exact ⟨"", "", by simp [joinLines]⟩
      | cons m ms =>
        refine ⟨"", "\n" ++ joinLines (m :: ms), ?_⟩
        simp [joinLines, String.append_assoc]
    · rcases ih hx with ⟨a, b, hab⟩
      cases rest with
      | nil => cases hx
      | cons m ms =>
        refine ⟨y ++ "\n" ++ a, b, ?_⟩
        simp only [joinLines]
        rw [hab]
        simp [String.append_assoc]

/-- Claim C4 — the response decoder is lenient: whenever the raw text parses to
a JSON object containing the key `answers`, of any shape, decoding succeeds and
returns exactly the parsed value, independently of the expected question
count. -/
theorem decode_lenient_passthrough (raw : String) (expected_count : Nat) (v : JValue)
    (hparse : parseJson raw = some v) (hkey : v.isDictWithKey "answers" = true) :
    decode raw expected_count = .ok v
      ∧ ∀ ec : Nat, decode raw ec = decode raw expected_count := by
  refine ⟨?_, ?_⟩
  · simp [decode, hparse, hkey]
  · intro ec
    simp [decode, hparse, hkey]

/-- Witness for C4: a reply whose `answers` items lack the `question`/`answer`
keys and whose length (2) differs from the expected count (5) still decodes to
the parsed value unchanged. -/
theorem decode_lenient_passthrough_witness :
    decode "\x7b\"answers\":[\x7b\"x\":1\x7d,null],\"extra\":true\x7d" 5 =
        .ok (.obj [("answers", .arr [.obj [("x", .num "1")], .null]), ("extra", .bool true)])
      ∧ ∀ ec : Nat,
          decode "\x7b\"answers\":[\x7b\"x\":1\x7d,null],\"extra\":true\x7d" ec =
            decode "\x7b\"answers\":[\x7b\"x\":1\x7d,null],\"extra\":true\x7d" 5 :=
  decode_lenient_passthrough _ 5 _ (by rfl) (by rfl)

/-- Claim C5 — the decoder fails with `MalformedServerResponse` exactly when the
raw text does not parse as JSON or parses to something that is not an object
with an `answers` key; decoding the empty-answers object succeeds, and decoding
the text `not json` fails for every expected count. -/
theorem decode_malformed_iff :
    (∀ (raw : String) (ec : Nat),
        decode raw ec = .error .malformedServerResponse ↔
          (parseJson raw = none
            ∨ ∃ v, parseJson raw = some v ∧ v.isDictWithKey "answers" = false))
      ∧ decode "\x7b\"answers\":[]\x7d" 0 = .ok (.obj [("answers", .arr [])])
      ∧ (∀ n : Nat, decode "not json" n = .error .malformedServerResponse) := by
  refine ⟨?_, by rfl, by intro n; rfl⟩
  intro raw ec
  cases hp : parseJson raw with
  | none => simp [decode, hp]
  | some v =>
    cases hk : v.isDictWithKey "answers" with
    | true => simp [decode, hp, hk]
    | false => simp [decode, hp, hk]

set_option maxRecDepth 100000 in
/-- Claim C6, counterexample — the prompt does not always contain a question's
text and declared type literally: for the question text ` Is it blue?\n` with
declared type `BOOLEAN`, the built prompt contains neither the raw text (it is
stripped) nor the declared keyword (it is lowercased). -/
theorem build_batch_prompt_counterexample :
    (¬ ∃ a b : String,
        build_batch_prompt [⟨" Is it blue?\n", "BOOLEAN"⟩] = a ++ " Is it blue?\n" ++ b)
      ∧ (¬ ∃ a b : String,
        build_batch_prompt [⟨" Is it blue?\n", "BOOLEAN"⟩] = a ++ "BOOLEAN" ++ b) := by
  constructor
  · rintro ⟨a, b, hab⟩
    have ht := occursIn_of_decomp _ a _ b hab
    have hf : occursIn (build_batch_prompt [⟨" Is it blue?\n", "BOOLEAN"⟩]) " Is it blue?\n" = false := by
      decide
    rw [hf] at ht
    exact Bool.false_ne_true ht
  · rintro ⟨a, b, hab⟩
    have ht := occursIn_of_decomp _ a _ b hab
    have hf : occursIn (build_batch_prompt [⟨" Is it blue?\n", "BOOLEAN"⟩]) "BOOLEAN" = false := by
      decide
    rw [hf] at ht
    exact Bool.false_ne_true ht

/-- Claim C6, amended — for every non-empty batch, `build_batch_prompt` is the
deterministic string made of the schema-description header, then the numbered
question lines (numbered from 1, in batch order), then the closing output-only
footer; and it contains every question's whitespace-stripped text and its
lowercased (stripped, empty-defaulted) answer-type keyword. -/
theorem build_batch_prompt_amended (qs : List Question) (h : qs ≠ []) :
    build_batch_prompt qs =
        joinLines promptHeaderLines ++ "\n"
          ++ joinLines (qs.enum.map fun p => questionLine (p.1 + 1) p.2) ++ "\n"
          ++ joinLines promptFooterLines
      ∧ ∀ q ∈ qs,
          (∃ a b : String, build_batch_prompt qs = a ++ pyStrip q.question ++ b)
          ∧ (∃ a b : String, build_batch_prompt qs =
               a ++ pyLower (pyStrip (if q.type == "" then "string" else q.type)) ++ b) := by
  have hm : qs.enum.map (fun p => questionLine (p.1 + 1) p.2) ≠ [] := by
    cases qs with
    | nil => exact absurd rfl h
    | cons q t => simp [List.enum_cons]
  constructor
  · show joinLines (promptHeaderLines
        ++ qs.enum.map (fun p => questionLine (p.1 + 1) p.2) ++ promptFooterLines) = _
    rw [joinLines_append _ promptFooterLines (by simp [hm]) (by simp [promptFooterLines]),
        joinLines_append promptHeaderLines _ (by simp [promptHeaderLines]) hm]
  · intro q hq
    rcases List.mem_iff_getElem.mp hq with ⟨i, hi, hqi⟩
    have hie : i < qs.enum.length := by simpa [List.enum_length] using hi
    have him : i < (qs.enum.map (fun p => questionLine (p.1 + 1) p.2)).length := by
      simpa [List.length_map] using hie
    have hgm : (qs.enum.map (fun p => questionLine (p.1 + 1) p.2))[i]
        = questionLine (i + 1) q := by
      simp only [List.getElem_map, List.getElem_enum]
      simp [hqi]
    have hmem : questionLine (i + 1) q
        ∈ promptHeaderLines ++ qs.enum.map (fun p => questionLine (p.1 + 1) p.2)
            ++ promptFooterLines := by
      refine List.mem_append_left _ (List.mem_append_right _ ?_)
      rw [← hgm]
      exact List.getElem_mem him
    rcases joinLines_mem_decomp _ _ hmem with ⟨a, b, hab⟩
    have hb : build_batch_prompt qs = a ++ questionLine (i + 1) q ++ b := hab
    constructor
    · refine ⟨a ++ (toString (i + 1) ++ ". "),
        " (answer with " ++ pyLower (pyStrip (if q.type == "" then "string" else q.type))
          ++ " JSON type)" ++ b, ?_⟩
      rw [hb]
      simp [questionLine, String.append_assoc]
    · refine ⟨a ++ (toString (i + 1) ++ ". " ++ pyStrip q.question ++ " (answer with "),
        " JSON type)" ++ b, ?_⟩
      rw [hb]
      simp [questionLine, String.append_assoc]

/-- Witness for the amended C6 at a concrete one-question batch. -/
theorem build_batch_prompt_amended_witness :
    build_batch_prompt [⟨"Is it blue?", "BOOLEAN"⟩] =
        joinLines promptHeaderLines ++ "\n"
          ++ joinLines (([⟨"Is it blue?", "BOOLEAN"⟩] : List Question).enum.map
               fun p => questionLine (p.1 + 1) p.2) ++ "\n"
          ++ joinLines promptFooterLines
      ∧ (∃ a b : String, build_batch_prompt [⟨"Is it blue?", "BOOLEAN"⟩]
           = a ++ pyStrip "Is it blue?" ++ b)
      ∧ (∃ a b : String, build_batch_prompt [⟨"Is it blue?", "BOOLEAN"⟩]
           = a ++ pyLower (pyStrip (if ("BOOLEAN" : String) == "" then "string" else "BOOLEAN")) ++ b) := by
  have h := build_batch_prompt_amended [⟨"Is it blue?", "BOOLEAN"⟩] (by simp)
  exact ⟨h.1, (h.2 ⟨"Is it blue?", "BOOLEAN"⟩ (by simp)).1,
    (h.2 ⟨"Is it blue?", "BOOLEAN"⟩ (by simp)).2⟩

theorem toNat_ofNat_valid (n : Nat) (h : n.isValidChar) : (Char.ofNat n).toNat = n := by
  simp [Char.ofNat, h, Char.ofNatAux, Char.toNat, UInt32.toNat, BitVec.toNat_ofNatLt]

theorem pyIsSpace_pyToLower (c : Char) : pyIsSpace (pyToLower c) = pyIsSpace c := by
  unfold pyToLower
  split
  · next h =>
    have hv : ((c.toNat + 32 : Nat)).isValidChar := by
      left
      omega
    have h1 : pyIsSpace (Char.ofNat (c.toNat + 32)) = false := by
      simp [pyIsSpace, toNat_ofNat_valid _ hv]
      omega
    have h2 : pyIsSpace c = false := by
      simp [pyIsSpace]
      omega
    rw [h1, h2]
  · rfl

theorem pyStrip_pyLower (s : String) : pyStrip (pyLower s) = pyLower (pyStrip s) := by
  have hpf : (pyIsSpace ∘ pyToLower) = pyIsSpace := funext pyIsSpace_pyToLower
  show (⟨_⟩ : String) = (⟨_⟩ : String)
  simp only [pyStrip, pyLower, List.dropWhile_map, hpf, ← List.map_reverse]

theorem pyLower_mem_allowed_ne_empty (t : String) (h : pyLower t ∈ allowedTypes) :
    t ≠ "" := by
  intro he
  subst he
  have h0 : pyLower "" = "" := rfl
  rw [h0] at h
  simp [allowedTypes] at h

/-- Characterization of a validated `ask_many` call: one network call carrying
the built prompt, the `setdefault`-merged options and the response schema, and
a result given by the response tail. -/
theorem ask_many_run (c : OllamaVisionClient) (image : String) (qs : List Question)
    (options : Option JDict) (env : Env) (st : St) (m : String)
    (hm : c.model = some m) (hm0 : m ≠ "") (hqs : qs ≠ [])
    (hval : validateQuestions qs = true) (hurl : isUrl image = false)
    (hfile : env.fileExists image = true) :
    c.ask_many image qs options env st =
      (askManyNet env qs,
       { st with events := st.events
           ++ [.generateCall m (build_batch_prompt qs)
                 (some (setdefault (options.getD []) "format" (.str "json")))
                 (some RESPONSE_SCHEMA)] }) := by
  have hload : loadImageBase64 image env = .ok () := by
    simp [loadImageBase64, hurl, hfile]
  have hmt : modelTruthy c.model = true := by
    simp [modelTruthy, hm, hm0]
  unfold OllamaVisionClient.ask_many
  rw [hmt, hm,
      show qs.isEmpty = false from List.isEmpty_eq_false.mpr hqs,
      hval, hload]
  rfl

/-- Characterization of a well-formed `ask` call: one network call carrying the
question and the caller options, and a result given by the response tail. -/
theorem ask_run (c : OllamaVisionClient) (image question : String)
    (options : Option JDict) (env : Env) (st : St) (m : String)
    (hm : c.model = some m) (hm0 : m ≠ "")
    (hurl : isUrl image = false) (hfile : env.fileExists image = true) :
    c.ask image question options env st =
      (askNet env,
       { st with events := st.events
           ++ [.generateCall m question (askOptSent options) none] }) := by
  have hload : loadImageBase64 image env = .ok () := by
    simp [loadImageBase64, hurl, hfile]
  have hmt : modelTruthy c.model = true := by
    simp [modelTruthy, hm, hm0]
  unfold OllamaVisionClient.ask
  rw [hmt, hm, hload]
  rfl

theorem alookup_append_of_none (m l : JDict) (k : String) (h : alookup m k = none) :
    alookup (m ++ l) k = alookup l k := by
  induction m with
  | nil => simp [alookup]
  | cons p rest ih =>
    obtain ⟨k1, v1⟩ := p
    by_cases hk : (k1 == k) = true
    · simp only [alookup, if_pos hk] at h
      exact Option.noConfusion h
    · simp only [alookup, if_neg hk] at h
      simp only [List.cons_append, alookup, if_neg hk]
      exact ih h

theorem alookup_append_of_some (m l : JDict) (k : String) (v : JValue)
    (h : alookup m k = some v) : alookup (m ++ l) k = some v := by
  induction m with
  | nil => exact Option.noConfusion h
  | cons p rest ih =>
    obtain ⟨k1, v1⟩ := p
    by_cases hk : (k1 == k) = true
    · simp only [alookup, if_pos hk] at h
      simp only [List.cons_append, alookup, if_pos hk]
      exact h
    · simp only [alookup, if_neg hk] at h
      simp only [List.cons_append, alookup, if_neg hk]
      exact ih h

theorem alookup_setdefault_same (m : JDict) (k : String) (v : JValue) :
    alookup (setdefault m k v) k = some ((alookup m k).getD v) := by
  unfold setdefault
  cases h : alookup m k with
  | some w => simpa using h
  | none =>
    rw [alookup_append_of_none m _ k h]
    simp [alookup]

theorem alookup_setdefault_other (m : JDict) (k k2 : String) (v : JValue)
    (hk : k2 ≠ k) : alookup (setdefault m k v) k2 = alookup m k2 := by
  unfold setdefault
  cases h : alookup m k with
  | some w => rfl
  | none =>
    cases h2 : alookup m k2 with
    | some w => exact alookup_append_of_some m _ k2 w h2
    | none =>
      rw [alookup_append_of_none m _ k2 h2]
      simp [alookup, beq_eq_false_iff_ne.mpr (Ne.symm hk)]

/-- Claim C1, counterexample — a caller-supplied `format` option is not
overridden: with `options = \x7b"format": "xml"\x7d`, the single network call of
`ask_many` carries `format = "xml"`, not the forced `"json"` value. -/
theorem ask_many_format_override_counterexample :
    ((OllamaVisionClient.ask_many ⟨DEFAULT_ENDPOINT, some "llava", 120⟩ "img.png"
        [⟨"q", "string"⟩] (some [("format", JValue.str "xml")])
        ⟨fun _ => true, .ok [], some [("response", JValue.str "\x7b\"answers\":[]\x7d")]⟩
        ⟨0, [], []⟩).2.events.map eventOptions)
      = [some [("format", JValue.str "xml")]]
    ∧ alookup [("format", JValue.str "xml")] "format" ≠ some (JValue.str "json") := by
  refine ⟨rfl, ?_⟩
  intro h
  simp [alookup] at h

/-- Claim C1, amended — the options sent on the network call are the caller
options with `format` defaulted (not forced) to `"json"`: the sent mapping has
`format = "json"` exactly when the caller supplied no `format` key, a
caller-supplied `format` value is preserved, and all other keys are passed
through unchanged. -/
theorem ask_many_options_setdefault (c : OllamaVisionClient) (image : String)
    (qs : List Question) (options : Option JDict) (env : Env) (st : St) (m : String)
    (hm : c.model = some m) (hm0 : m ≠ "") (hqs : qs ≠ [])
    (hval : validateQuestions qs = true) (hurl : isUrl image = false)
    (hfile : env.fileExists image = true) :
    (c.ask_many image qs options env st).2.events
        = st.events ++ [.generateCall m (build_batch_prompt qs)
            (some (setdefault (options.getD []) "format" (.str "json")))
            (some RESPONSE_SCHEMA)]
      ∧ alookup (setdefault (options.getD []) "format" (.str "json")) "format"
          = some ((alookup (options.getD []) "format").getD (.str "json"))
      ∧ (∀ k, k ≠ "format" →
          alookup (setdefault (options.getD []) "format" (.str "json")) k
            = alookup (options.getD []) k) := by
  refine ⟨?_, alookup_setdefault_same _ _ _, fun k hk => alookup_setdefault_other _ _ _ _ hk⟩
  rw [ask_many_run c image qs options env st m hm hm0 hqs hval hurl hfile]

/-- Witness for the amended C1 at concrete inputs: a caller `temperature`
option is preserved and `format = "json"` is added. -/
theorem ask_many_options_setdefault_witness :
    (OllamaVisionClient.ask_many ⟨DEFAULT_ENDPOINT, some "llava", 120⟩ "img.png"
        [⟨"q", "string"⟩] (some [("temperature", JValue.num "0")])
        ⟨fun _ => true, .ok [], none⟩ ⟨0, [], []⟩).2.events
      = ([] : List Event) ++ [.generateCall "llava" (build_batch_prompt [⟨"q", "string"⟩])
          (some (setdefault ((some [("temperature", JValue.num "0")] : Option JDict).getD [])
            "format" (.str "json")))
          (some RESPONSE_SCHEMA)]
    ∧ alookup (setdefault ((some [("temperature", JValue.num "0")] : Option JDict).getD [])
          "format" (.str "json")) "format"
        = some ((alookup ((some [("temperature", JValue.num "0")] : Option JDict).getD [])
            "format").getD (.str "json"))
    ∧ alookup (setdefault ((some [("temperature", JValue.num "0")] : Option JDict).getD [])
          "format" (.str "json")) "temperature"
        = alookup ((some [("temperature", JValue.num "0")] : Option JDict).getD [])
            "temperature" := by
  have h := ask_many_options_setdefault ⟨DEFAULT_ENDPOINT, some "llava", 120⟩ "img.png"
    [⟨"q", "string"⟩] (some [("temperature", JValue.num "0")])
    ⟨fun _ => true, .ok [], none⟩ ⟨0, [], []⟩ "llava"
    rfl (by decide) (by simp) (by decide) (by decide) rfl
  exact ⟨h.1, h.2.1, h.2.2 "temperature" (by decide)⟩

theorem askNet_characterization (env : Env) :
    (∀ s : String, askNet env = .ok s ↔
        (alookup ((env.genResp).getD []) "response" = some (.str s) ∧ s ≠ ""))
    ∧ (askNet env = .error .malformedServerResponse ↔
        ¬ ∃ s : String,
            alookup ((env.genResp).getD []) "response" = some (.str s) ∧ s ≠ "") := by
  unfold askNet
  cases h : alookup ((env.genResp).getD []) "response" with
  | none => simp
  | some v =>
    cases v with
    | null => simp [JValue.falsy]
    | bool b => cases b <;> simp [JValue.falsy]
    | num t =>
      dsimp only
      by_cases hz : ((JValue.num t).falsy) = true
      · rw [if_pos hz]
        simp
      · rw [if_neg hz]
        simp
    | str s0 =>
      by_cases h0 : s0 = ""
      · subst h0
        simp [JValue.falsy]
      · simp [JValue.falsy, h0]
    | arr l => cases l <;> simp [JValue.falsy]
    | obj l => cases l <;> simp [JValue.falsy]

/-- Claim C2, amended — under a configured model and a readable local image,
`ask` returns exactly the server reply's `response` string when that string is
non-empty, and fails with `MalformedServerResponse` otherwise (response field
absent, non-string, or the empty string, which the `or \x7b\x7d` fallback turns
into a non-string). -/
theorem ask_response_characterization (c : OllamaVisionClient) (image question : String)
    (options : Option JDict) (env : Env) (st : St) (m : String)
    (hm : c.model = some m) (hm0 : m ≠ "")
    (hurl : isUrl image = false) (hfile : env.fileExists image = true) :
    (∀ s : String, (c.ask image question options env st).1 = .ok s ↔
        (alookup ((env.genResp).getD []) "response" = some (.str s) ∧ s ≠ ""))
    ∧ ((c.ask image question options env st).1 = .error .malformedServerResponse ↔
        ¬ ∃ s : String,
            alookup ((env.genResp).getD []) "response" = some (.str s) ∧ s ≠ "") := by
  rw [ask_run c image question options env st m hm hm0 hurl hfile]
  exact askNet_characterization env

/-- Claim C2, counterexample — a server reply whose `response` field is the
empty string is a textual response field, yet `ask` raises
`MalformedServerResponse` instead of returning `""`. -/
theorem ask_empty_response_counterexample :
    alookup [("response", JValue.str "")] "response" = some (JValue.str "")
    ∧ (OllamaVisionClient.ask ⟨DEFAULT_ENDPOINT, some "llava", 120⟩ "img.png" "Q?" none
        ⟨fun _ => true, .ok [], some [("response", JValue.str "")]⟩ ⟨0, [], []⟩).1
      = .error .malformedServerResponse :=
  ⟨rfl, rfl⟩

/-- Witness for the amended C2: the spec's scenario — a mocked reply
`\x7b"response": "Yes"\x7d` yields exactly the string `"Yes"`. -/
theorem ask_response_characterization_witness :
    (OllamaVisionClient.ask ⟨DEFAULT_ENDPOINT, some "llava", 120⟩ "img.png" "Q?" none
        ⟨fun _ => true, .ok [], some [("response", JValue.str "Yes")]⟩ ⟨0, [], []⟩).1
      = .ok "Yes" := by
  have h := ask_response_characterization ⟨DEFAULT_ENDPOINT, some "llava", 120⟩ "img.png" "Q?"
    none ⟨fun _ => true, .ok [], some [("response", JValue.str "Yes")]⟩ ⟨0, [], []⟩ "llava"
    rfl (by decide) (by decide) rfl
  exact (h.1 "Yes").mpr ⟨rfl, by decide⟩

/-- Claim C3, amended — precondition failures of `ask_many` happen before any
network call (the state is returned untouched): an unconfigured model (`None`
or `""`) fails with `ModelNotConfigured`; with a configured model, an empty
batch fails with `InvalidQuestionBatch`; with a configured model, a batch in
which some question's answer type — empty defaulted to `string`, compared
case-insensitively — is outside \x7bstring, number, boolean\x7d fails with
`InvalidQuestionBatch`. -/
theorem ask_many_precondition_failures (c : OllamaVisionClient) (image : String)
    (qs : List Question) (options : Option JDict) (env : Env) (st : St) :
    ((c.model = none ∨ c.model = some "") →
        c.ask_many image qs options env st = (.error .modelNotConfigured, st))
    ∧ (modelTruthy c.model = true → qs = [] →
        c.ask_many image qs options env st = (.error .invalidQuestionBatch, st))
    ∧ (modelTruthy c.model = true →
        (∃ q ∈ qs, validateQuestionType q = false) →
        c.ask_many image qs options env st = (.error .invalidQuestionBatch, st)) := by
  refine ⟨?_, ?_, ?_⟩
  · intro hm
    have hmt : modelTruthy c.model = false := by
      rcases hm with h | h <;> simp [modelTruthy, h]
    unfold OllamaVisionClient.ask_many
    rw [hmt]
    rfl
  · intro hmt hq
    subst hq
    unfold OllamaVisionClient.ask_many
    rw [hmt]
    rfl
  · intro hmt hbad
    have hv : validateQuestions qs = false := by
      rcases hbad with ⟨q, hq, hfalse⟩
      rw [validateQuestions]
      exact List.all_eq_false.mpr ⟨q, hq, by simp [hfalse]⟩
    unfold OllamaVisionClient.ask_many
    rw [hmt, hv]
    cases hqe : qs.isEmpty <;> rfl

/-- Claim C3, counterexample — the types `String` and `""` are outside
\x7bstring, number, boolean\x7d, yet the batch passes validation: the call
issues a network request and returns the decoded answers instead of failing
with `InvalidQuestionBatch`. -/
theorem ask_many_validation_counterexample :
    ("String" ∈ allowedTypes → False)
    ∧ ("" ∈ allowedTypes → False)
    ∧ (OllamaVisionClient.ask_many ⟨DEFAULT_ENDPOINT, some "llava", 120⟩ "img.png"
        [⟨"a", "String"⟩, ⟨"b", ""⟩] none
        ⟨fun _ => true, .ok [], some [("response", JValue.str "\x7b\"answers\":[]\x7d")]⟩
        ⟨0, [], []⟩).1
      = .ok (.obj [("answers", .arr [])])
    ∧ (OllamaVisionClient.ask_many ⟨DEFAULT_ENDPOINT, some "llava", 120⟩ "img.png"
        [⟨"a", "String"⟩, ⟨"b", ""⟩] none
        ⟨fun _ => true, .ok [], some [("response", JValue.str "\x7b\"answers\":[]\x7d")]⟩
        ⟨0, [], []⟩).2.events.length = 1 :=
  ⟨by decide, by decide, rfl, rfl⟩

/-- Witness for the amended C3 at concrete inputs: bad type `int`, missing
model, and empty batch each fail with the stated error and an untouched
state. -/
theorem ask_many_precondition_failures_witness :
    OllamaVisionClient.ask_many ⟨DEFAULT_ENDPOINT, some "llava", 120⟩ "img.png"
        [⟨"a", "int"⟩] none ⟨fun _ => true, .ok [], none⟩ ⟨0, [], []⟩
      = (.error .invalidQuestionBatch, ⟨0, [], []⟩)
    ∧ OllamaVisionClient.ask_many ⟨DEFAULT_ENDPOINT, none, 120⟩ "img.png"
        [⟨"a", "string"⟩] none ⟨fun _ => true, .ok [], none⟩ ⟨0, [], []⟩
      = (.error .modelNotConfigured, ⟨0, [], []⟩)
    ∧ OllamaVisionClient.ask_many ⟨DEFAULT_ENDPOINT, some "llava", 120⟩ "img.png"
        [] none ⟨fun _ => true, .ok [], none⟩ ⟨0, [], []⟩
      = (.error .invalidQuestionBatch, ⟨0, [], []⟩) := by
  refine ⟨?_, ?_, ?_⟩
  · exact (ask_many_precondition_failures ⟨DEFAULT_ENDPOINT, some "llava", 120⟩ "img.png"
      [⟨"a", "int"⟩] none ⟨fun _ => true, .ok [], none⟩ ⟨0, [], []⟩).2.2
      (by decide) ⟨⟨"a", "int"⟩, by simp, by decide⟩
  · exact (ask_many_precondition_failures ⟨DEFAULT_ENDPOINT, none, 120⟩ "img.png"
      [⟨"a", "string"⟩] none ⟨fun _ => true, .ok [], none⟩ ⟨0, [], []⟩).1 (Or.inl rfl)
  · exact (ask_many_precondition_failures ⟨DEFAULT_ENDPOINT, some "llava", 120⟩ "img.png"
      [] none ⟨fun _ => true, .ok [], none⟩ ⟨0, [], []⟩).2.1 (by decide) rfl

theorem loadImageBase64_error_cases (image : String) (env : Env) (e : PyErr)
    (h : loadImageBase64 image env = .error e) :
    e = .unsupportedInput ∨ e = .imageNotFound := by
  unfold loadImageBase64 at h
  split at h
  · injection h with h2
    exact Or.inl h2.symm
  · split at h
    · exact Except.noConfusion h
    · injection h with h2
      exact Or.inr h2.symm

theorem decode_ne_invalidQuestionBatch (s : String) (n : Nat) :
    decode s n ≠ .error .invalidQuestionBatch := by
  unfold decode
  split
  · simp
  · split <;> simp

theorem askManyNet_ne_invalidQuestionBatch (env : Env) (qs : List Question) :
    askManyNet env qs ≠ .error .invalidQuestionBatch := by
  unfold askManyNet
  split
  · exact decode_ne_invalidQuestionBatch _ _
  · simp

/-- Claim C9 — answer-type validation is case-insensitive: every question whose
type lowercases to one of the three keywords passes the validation loop, the
built prompt line annotates it with the lowercased keyword, and a batch of
such questions is never rejected by `ask_many` as an invalid question batch. -/
theorem ask_many_type_case_insensitive (qs : List Question)
    (h : ∀ q ∈ qs, pyLower q.type ∈ allowedTypes) :
    validateQuestions qs = true
      ∧ (∀ q ∈ qs, ∀ i : Nat,
          questionLine i q = toString i ++ ". " ++ pyStrip q.question
            ++ " (answer with " ++ pyLower q.type ++ " JSON type)")
      ∧ (∀ (c : OllamaVisionClient) (m image : String) (options : Option JDict)
            (env : Env) (st : St),
          c.model = some m → m ≠ "" → qs ≠ [] →
          (c.ask_many image qs options env st).1 ≠ .error .invalidQuestionBatch) := by
  have hne : ∀ q ∈ qs, q.type ≠ "" := fun q hq => pyLower_mem_allowed_ne_empty _ (h q hq)
  have hlow : ∀ q ∈ qs, pyLower (pyStrip (if q.type == "" then "string" else q.type))
      = pyLower q.type := by
    intro q hq
    rw [if_neg (by simpa using hne q hq)]
    rw [← pyStrip_pyLower]
    have hmem := h q hq
    simp only [allowedTypes, List.mem_cons, List.not_mem_nil, or_false] at hmem
    rcases hmem with ht | ht | ht <;> rw [ht] <;> rfl
  have hval : validateQuestions qs = true := by
    rw [validateQuestions, List.all_eq_true]
    intro q hq
    rw [validateQuestionType, if_neg (by simpa using hne q hq)]
    simpa using h q hq
  refine ⟨hval, ?_, ?_⟩
  · intro q hq i
    rw [questionLine, hlow q hq]
  · intro c m image options env st hm hm0 hqs
    have hmt : modelTruthy c.model = true := by
      simp [modelTruthy, hm, hm0]
    by_cases hurl : isUrl image = true
    · have hli : loadImageBase64 image env = .error .unsupportedInput := by
        simp [loadImageBase64, hurl]
      unfold OllamaVisionClient.ask_many
      rw [hmt, show qs.isEmpty = false from List.isEmpty_eq_false.mpr hqs, hval, hli]
      intro hcon
      injection hcon with h2
      exact PyErr.noConfusion h2
    · by_cases hfile : env.fileExists image = true
      · rw [ask_many_run c image qs options env st m hm hm0 hqs hval
          (by simpa using hurl) hfile]
        exact askManyNet_ne_invalidQuestionBatch env qs
      · have hli : loadImageBase64 image env = .error .imageNotFound := by
          simp [loadImageBase64, hurl, hfile]
        unfold OllamaVisionClient.ask_many
        rw [hmt, show qs.isEmpty = false from List.isEmpty_eq_false.mpr hqs, hval, hli]
        intro hcon
        injection hcon with h2
        exact PyErr.noConfusion h2

/-- Witness for C9: mixed-case types `String` and `NUMBER` pass validation, the
prompt annotates the first question with the lowercased keyword, and a concrete
batch call does not fail with `InvalidQuestionBatch`. -/
theorem ask_many_type_case_insensitive_witness :
    validateQuestions [⟨"Any text?", "String"⟩, ⟨"How many?", "NUMBER"⟩] = true
      ∧ questionLine 1 ⟨"Any text?", "String"⟩
          = toString 1 ++ ". " ++ pyStrip "Any text?" ++ " (answer with "
              ++ pyLower "String" ++ " JSON type)"
      ∧ (OllamaVisionClient.ask_many ⟨DEFAULT_ENDPOINT, some "llava", 120⟩ "img.png"
            [⟨"Any text?", "String"⟩, ⟨"How many?", "NUMBER"⟩] none
            ⟨fun _ => true, .ok [], none⟩ ⟨0, [], []⟩).1
          ≠ .error .invalidQuestionBatch := by
  have h := ask_many_type_case_insensitive
    [⟨"Any text?", "String"⟩, ⟨"How many?", "NUMBER"⟩] (by decide)
  exact ⟨h.1, h.2.1 ⟨"Any text?", "String"⟩ (by simp) 1,
    h.2.2 ⟨DEFAULT_ENDPOINT, some "llava", 120⟩ "llava" "img.png" none
      ⟨fun _ => true, .ok [], none⟩ ⟨0, [], []⟩ rfl (by decide) (by simp)⟩

theorem ask_many_preserves_live (c : OllamaVisionClient) (image : String)
    (qs : List Question) (options : Option JDict) (env : Env) (st : St) :
    ((c.ask_many image qs options env st).2).live = st.live := by
  unfold OllamaVisionClient.ask_many generate
  repeat' split
  all_goals rfl

theorem ask_image_questions_preserves_live (image : String) (qs : List Question)
    (model : String) (endpoint : Option String) (options : Option JDict)
    (timeout : Int) (env : Env) (st : St) :
    ((ask_image_questions image qs model endpoint options timeout env st).2).live
      = st.live :=
  ask_many_preserves_live _ _ _ _ _ _

/-- Claim C10 — the extension dispatch is case-insensitive and the non-PDF
branch ignores `page` entirely: when the lowercased path does not end in
`.pdf`, the call is exactly the image batch call, for every page value
including 0 and negatives — no page validation and no renderer invocation
happen on that branch. -/
theorem ask_document_questions_non_pdf_dispatch (path : String)
    (qs : List Question) (page : Int) (model : String) (endpoint : Option String)
    (options : Option JDict) (timeout : Int) (env : Env) (st : St)
    (h : pyEndsWith (pyLower path) ".pdf" = false) :
    ask_document_questions path qs page model endpoint options timeout env st
      = ask_image_questions path qs model endpoint options timeout env st := by
  unfold ask_document_questions
  rw [h]
  rfl

/-- Witness for C10 at a concrete call: an uppercase non-PDF extension with
page 0 dispatches straight to the image batch call without raising. -/
theorem ask_document_questions_non_pdf_dispatch_witness :
    ask_document_questions "photo.PNG" [⟨"q", "string"⟩] 0 "llava" none none 120
        ⟨fun _ => true, .ok [], some [("response", JValue.str "\x7b\"answers\":[]\x7d")]⟩
        ⟨0, [], []⟩
      = ask_image_questions "photo.PNG" [⟨"q", "string"⟩] "llava" none none 120
        ⟨fun _ => true, .ok [], some [("response", JValue.str "\x7b\"answers\":[]\x7d")]⟩
        ⟨0, [], []⟩ :=
  ask_document_questions_non_pdf_dispatch "photo.PNG" [⟨"q", "string"⟩] 0 "llava"
    none none 120 _ _ (by decide)

/-- Claim C7 — PDF page validation in the document-level entry points: page 0
or negative fails with the page validation error before the renderer runs (the
state, and hence the event log, is returned untouched); a document rendering
to zero pages fails with `EmptyDocument`; a page beyond the rendered page
count fails with `PageOutOfRange`.  Both `ask_document_questions` and
`ask_pdf_question` are covered. -/
theorem ask_document_questions_page_errors (path question : String)
    (qs : List Question) (page : Int) (model : String) (endpoint : Option String)
    (options : Option JDict) (timeout : Int) (env : Env) (st : St)
    (hpdf : pyEndsWith (pyLower path) ".pdf" = true) :
    (page < 1 →
        ask_document_questions path qs page model endpoint options timeout env st
          = (.error .invalidPage, st)
        ∧ ask_pdf_question path question page model endpoint options timeout env st
          = (.error .invalidPage, st))
    ∧ (1 ≤ page → env.render = .ok [] →
        (ask_document_questions path qs page model endpoint options timeout env st).1
          = .error .emptyDocument
        ∧ (ask_pdf_question path question page model endpoint options timeout env st).1
          = .error .emptyDocument)
    ∧ (∀ pgs : List String, 1 ≤ page → env.render = .ok pgs → pgs ≠ [] →
        (pgs.length : Int) < page →
        (ask_document_questions path qs page model endpoint options timeout env st).1
          = .error .pageOutOfRange
        ∧ (ask_pdf_question path question page model endpoint options timeout env st).1
          = .error .pageOutOfRange) := by
  refine ⟨?_, ?_, ?_⟩
  · intro hp
    constructor
    · unfold ask_document_questions
      rw [hpdf, if_pos hp]
      rfl
    · unfold ask_pdf_question
      rw [if_pos hp]
  · intro hp hr
    have hnp : ¬ page < 1 := by omega
    constructor
    · unfold ask_document_questions withTempDir pdf_to_png_pages
      rw [hpdf, if_neg hnp, hr]
      rfl
    · unfold ask_pdf_question withTempDir pdf_to_png_pages
      rw [if_neg hnp, hr]
      rfl
  · intro pgs hp hr hne hlt
    have hnp : ¬ page < 1 := by omega
    have hemp : pgs.isEmpty = false := List.isEmpty_eq_false.mpr hne
    have hpo : (pgs.length : Int) ≤ page - 1 := by omega
    constructor
    · unfold ask_document_questions withTempDir pdf_to_png_pages
      rw [hpdf, if_neg hnp, hr]
      simp [hemp, hpo]
    · unfold ask_pdf_question withTempDir pdf_to_png_pages
      rw [if_neg hnp, hr]
      simp [hemp, hpo]

/-- Witness for C7 at concrete inputs: page 0 fails with the validation error
(state untouched), a zero-page document fails with `EmptyDocument`, and page 3
of a 1-page document fails with `PageOutOfRange`. -/
theorem ask_document_questions_page_errors_witness :
    ask_document_questions "doc.pdf" [⟨"q", "string"⟩] 0 "llava" none none 120
        ⟨fun _ => true, .ok ["doc_page1.png"], none⟩ ⟨0, [], []⟩
      = (.error .invalidPage, ⟨0, [], []⟩)
    ∧ (ask_document_questions "doc.pdf" [⟨"q", "string"⟩] 1 "llava" none none 120
        ⟨fun _ => true, .ok [], none⟩ ⟨0, [], []⟩).1
      = .error .emptyDocument
    ∧ (ask_document_questions "doc.pdf" [⟨"q", "string"⟩] 3 "llava" none none 120
        ⟨fun _ => true, .ok ["doc_page1.png"], none⟩ ⟨0, [], []⟩).1
      = .error .pageOutOfRange := by
  refine ⟨?_, ?_, ?_⟩
  · exact ((ask_document_questions_page_errors "doc.pdf" "q" [⟨"q", "string"⟩] 0 "llava"
      none none 120 ⟨fun _ => true, .ok ["doc_page1.png"], none⟩ ⟨0, [], []⟩
      (by decide)).1 (by omega)).1
  · exact ((ask_document_questions_page_errors "doc.pdf" "q" [⟨"q", "string"⟩] 1 "llava"
      none none 120 ⟨fun _ => true, .ok [], none⟩ ⟨0, [], []⟩
      (by decide)).2.1 (by omega) rfl).1
  · exact ((ask_document_questions_page_errors "doc.pdf" "q" [⟨"q", "string"⟩] 3 "llava"
      none none 120 ⟨fun _ => true, .ok ["doc_page1.png"], none⟩ ⟨0, [], []⟩
      (by decide)).2.2 ["doc_page1.png"] (by omega) rfl (by simp) (by simp)).1

/-- Claim C8 — the scoped temporary rendering directory is removed on every
exit path of a PDF call: for every environment (validation failure, renderer
failure, empty document, page out of range, or success) the set of live
temporary directories after `ask_document_questions` equals the set before. -/
theorem ask_document_questions_tempdir_cleanup (path : String) (qs : List Question)
    (page : Int) (model : String) (endpoint : Option String) (options : Option JDict)
    (timeout : Int) (env : Env) (st : St)
    (hpdf : pyEndsWith (pyLower path) ".pdf" = true) :
    ((ask_document_questions path qs page model endpoint options timeout env st).2).live
      = st.live := by
  unfold ask_document_questions
  rw [hpdf]
  by_cases hp : page < 1
  · rw [if_pos hp]
    rfl
  · rw [if_neg hp]
    unfold withTempDir pdf_to_png_pages
    cases hr : env.render with
    | error e => simp
    | ok pgs =>
      by_cases hemp : pgs.isEmpty = true
      · simp [hemp]
      · by_cases hpo : (pgs.length : Int) ≤ page - 1
        · simp [hemp, hpo]
        · simp [hemp, hpo, ask_image_questions_preserves_live]

/-- Witness for C8 at a concrete call in which the renderer raises mid-call:
no temporary directory remains live afterwards. -/
theorem ask_document_questions_tempdir_cleanup_witness :
    ((ask_document_questions "doc.pdf" [⟨"q", "string"⟩] 1 "llava" none none 120
        ⟨fun _ => true, .error .renderFailure, none⟩ ⟨0, [], []⟩).2).live
      = ([] : List Nat) :=
  ask_document_questions_tempdir_cleanup "doc.pdf" [⟨"q", "string"⟩] 1 "llava"
    none none 120 ⟨fun _ => true, .error .renderFailure, none⟩ ⟨0, [], []⟩ (by decide)
